import Mathlib

/-!
Verification development for the Player_Performance repository.

The definitions below are a shallow embedding of the JavaScript source:
JavaScript numbers are modelled as exact rationals (`ℚ`), `Math.round` as
`jsRound`, `Math.floor` as `Int.floor`, and JavaScript objects as Lean
structures.  Fields that may be `null`/`undefined` are modelled as `Option`.
Store-managed timestamp fields (`createdAt`/`updatedAt`) carry no logical
content for the properties below and are omitted from the embedded records.
-/

/-- JavaScript `String.prototype.trim()` over the character list (the
built-in `String.trim` is irreducible in the kernel). -/
def jsTrim (s : String) : String :=
  ⟨((s.data.dropWhile Char.isWhitespace).reverse.dropWhile Char.isWhitespace).reverse⟩

/-- JavaScript `String.prototype.toLowerCase()` over the character list. -/
def jsToLower (s : String) : String := ⟨s.data.map Char.toLower⟩

/-- JavaScript `Math.round`: round half toward positive infinity. -/
def jsRound (x : ℚ) : ℤ := ⌊x + 1/2⌋

/-- Rounding to two decimal places, `Math.round(x * 100) / 100`. -/
def round2 (x : ℚ) : ℚ := (jsRound (x * 100) : ℚ) / 100

/- ------------------------------------------------------------------
Score calculator, from `src/utils/performanceCalculator.js`
(`src/unnamed/part_013`).  The three per-sport functions destructure a
full parameter bag; they are embedded over typed parameter records
(submission only reaches them after range validation, which forces every
field to be present).
------------------------------------------------------------------- -/

structure CricketParams where
  runsScored : ℚ
  ballsFaced : ℚ
  wicketsTaken : ℚ
  catches : ℚ
  oversBowled : ℚ
deriving DecidableEq, Repr

structure FootballParams where
  goalsScored : ℚ
  assists : ℚ
  passesCompleted : ℚ
  tacklesMade : ℚ
  minutesPlayed : ℚ
deriving DecidableEq, Repr

structure BasketballParams where
  pointsScored : ℚ
  rebounds : ℚ
  assists : ℚ
  steals : ℚ
  minutesPlayed : ℚ
deriving DecidableEq, Repr

/-- Embeds `calculateCricketScore` from the performance calculator. -/
def calculateCricketScore (p : CricketParams) : ℤ :=
  let battingScore : ℚ :=
    if 0 < p.ballsFaced then
      min 100 (p.runsScored / p.ballsFaced * 100)
    else if 0 < p.runsScored then
      min 100 (p.runsScored * 10)
    else 0
  let bowlingScore : ℚ :=
    if 0 < p.oversBowled then
      min 100 (p.wicketsTaken / p.oversBowled * 100)
    else if 0 < p.wicketsTaken then
      min 100 (p.wicketsTaken * 25)
    else 0
  let fieldingScore : ℚ := min 100 (p.catches * 20)
  let totalScore := battingScore * (1/2) + bowlingScore * (3/10) + fieldingScore * (1/5)
  jsRound (min 100 (max 0 totalScore))

/-- Embeds `calculateFootballScore` from the performance calculator. -/
def calculateFootballScore (p : FootballParams) : ℤ :=
  let safeMinutesPlayed := max p.minutesPlayed 1
  let goalScore := p.goalsScored / safeMinutesPlayed * 90 * 20
  let assistScore := p.assists / safeMinutesPlayed * 90 * 15
  let passAccuracy := min 30 (p.passesCompleted / safeMinutesPlayed * 30)
  let defenseScore := min 20 (p.tacklesMade / safeMinutesPlayed * 90 * (11/50))
  let totalScore := goalScore + assistScore + passAccuracy + defenseScore
  jsRound (min 100 (max 0 totalScore))

/-- Embeds `calculateBasketballScore` from the performance calculator. -/
def calculateBasketballScore (p : BasketballParams) : ℤ :=
  let safeMinutesPlayed := max p.minutesPlayed 1
  let pointsPerMinute := p.pointsScored / safeMinutesPlayed * 48
  let pointScore := min 40 (pointsPerMinute * (83/100))
  let reboundScore := min 25 (p.rebounds / safeMinutesPlayed * 48 * (5/2))
  let assistScore := min 25 (p.assists / safeMinutesPlayed * 48 * (25/8))
  let stealScore := min 10 (p.steals / safeMinutesPlayed * 48 * 5)
  let totalScore := pointScore + reboundScore + assistScore + stealScore
  jsRound (min 100 (max 0 totalScore))

/-- A typed sport/parameter pair, the domain of the dispatch in
`calculatePerformanceScore`. -/
inductive SportParams where
  | cricket (p : CricketParams)
  | football (p : FootballParams)
  | basketball (p : BasketballParams)
deriving DecidableEq, Repr

/-- The sport tag carried by a typed parameter set. -/
def SportParams.tag : SportParams → String
  | .cricket _ => "cricket"
  | .football _ => "football"
  | .basketball _ => "basketball"

/-- Per-sport dispatch of the score calculation (the `switch` inside
`calculatePerformanceScore`). -/
def SportParams.score : SportParams → ℤ
  | .cricket p => calculateCricketScore p
  | .football p => calculateFootballScore p
  | .basketball p => calculateBasketballScore p

/- ------------------------------------------------------------------
Validators, from `src/utils/validators.js` (`src/unnamed/part_007`).
A raw parameter bag is a JavaScript object whose numeric fields may be
absent (`undefined`); each possible field is an `Option ℚ`.  Validation
errors are modelled as the list of violated field keys, in the order the
source inserts them into its `errors` object; the attached human-readable
messages carry no logical content and are dropped.
------------------------------------------------------------------- -/

structure ParamBag where
  runsScored : Option ℚ := none
  ballsFaced : Option ℚ := none
  wicketsTaken : Option ℚ := none
  catches : Option ℚ := none
  oversBowled : Option ℚ := none
  goalsScored : Option ℚ := none
  assists : Option ℚ := none
  passesCompleted : Option ℚ := none
  tacklesMade : Option ℚ := none
  minutesPlayed : Option ℚ := none
  pointsScored : Option ℚ := none
  rebounds : Option ℚ := none
  steals : Option ℚ := none
deriving DecidableEq, Repr

/-- Embeds `validateRequired`: present and non-empty after trimming. -/
def validateRequired : Option String → Bool
  | none => false
  | some s => jsTrim s ≠ ""

/-- Embeds `validateNumeric(value, min, max)`: a missing field parses to `NaN`
and fails every comparison. -/
def validateNumeric (value : Option ℚ) (lo hi : ℚ) : Bool :=
  match value with
  | none => false
  | some n => lo ≤ n && n ≤ hi

/-- Embeds `validateCricketParams`: violated field keys, in source order. -/
def validateCricketParams (params : ParamBag) : List String :=
  (if !validateNumeric params.runsScored 0 500 then ["runsScored"] else []) ++
  (if !validateNumeric params.ballsFaced 0 600 then ["ballsFaced"] else []) ++
  (if !validateNumeric params.wicketsTaken 0 10 then ["wicketsTaken"] else []) ++
  (if !validateNumeric params.catches 0 20 then ["catches"] else []) ++
  (if !validateNumeric params.oversBowled 0 50 then ["oversBowled"] else [])

/-- Embeds `validateFootballParams`: violated field keys, in source order. -/
def validateFootballParams (params : ParamBag) : List String :=
  (if !validateNumeric params.goalsScored 0 20 then ["goalsScored"] else []) ++
  (if !validateNumeric params.assists 0 20 then ["assists"] else []) ++
  (if !validateNumeric params.passesCompleted 0 200 then ["passesCompleted"] else []) ++
  (if !validateNumeric params.tacklesMade 0 50 then ["tacklesMade"] else []) ++
  (if !validateNumeric params.minutesPlayed 0 120 then ["minutesPlayed"] else [])

/-- Embeds `validateBasketballParams`: violated field keys, in source order. -/
def validateBasketballParams (params : ParamBag) : List String :=
  (if !validateNumeric params.pointsScored 0 100 then ["pointsScored"] else []) ++
  (if !validateNumeric params.rebounds 0 50 then ["rebounds"] else []) ++
  (if !validateNumeric params.assists 0 30 then ["assists"] else []) ++
  (if !validateNumeric params.steals 0 20 then ["steals"] else []) ++
  (if !validateNumeric params.minutesPlayed 0 48 then ["minutesPlayed"] else [])

/-- Embeds `validateSportParameters`: dispatch on the exact sport string; an
unknown (or missing) sport yields the single error key `sport`. -/
def validateSportParameters (sport : Option String) (params : ParamBag) : List String :=
  match sport with
  | some "cricket" => validateCricketParams params
  | some "football" => validateFootballParams params
  | some "basketball" => validateBasketballParams params
  | _ => ["sport"]

/-- The typed cricket parameters carried by a bag, when every cricket
field is present. -/
def ParamBag.toCricket (b : ParamBag) : Option CricketParams :=
  match b.runsScored, b.ballsFaced, b.wicketsTaken, b.catches, b.oversBowled with
  | some r, some bf, some w, some c, some o => some ⟨r, bf, w, c, o⟩
  | _, _, _, _, _ => none

/-- The typed football parameters carried by a bag. -/
def ParamBag.toFootball (b : ParamBag) : Option FootballParams :=
  match b.goalsScored, b.assists, b.passesCompleted, b.tacklesMade, b.minutesPlayed with
  | some g, some a, some pc, some t, some m => some ⟨g, a, pc, t, m⟩
  | _, _, _, _, _ => none

/-- The typed basketball parameters carried by a bag. -/
def ParamBag.toBasketball (b : ParamBag) : Option BasketballParams :=
  match b.pointsScored, b.rebounds, b.assists, b.steals, b.minutesPlayed with
  | some p, some r, some a, some s, some m => some ⟨p, r, a, s, m⟩
  | _, _, _, _, _ => none

/-- The parameter bag a typed parameter set denotes (every relevant field
present); used to state range-validity of typed parameters through the
source validators. -/
def SportParams.bag : SportParams → ParamBag
  | .cricket p =>
      { runsScored := some p.runsScored, ballsFaced := some p.ballsFaced,
        wicketsTaken := some p.wicketsTaken, catches := some p.catches,
        oversBowled := some p.oversBowled }
  | .football p =>
      { goalsScored := some p.goalsScored, assists := some p.assists,
        passesCompleted := some p.passesCompleted, tacklesMade := some p.tacklesMade,
        minutesPlayed := some p.minutesPlayed }
  | .basketball p =>
      { pointsScored := some p.pointsScored, rebounds := some p.rebounds,
        assists := some p.assists, steals := some p.steals,
        minutesPlayed := some p.minutesPlayed }

/-- Embeds `calculatePerformanceScore(sport, parameters)` from the performance
calculator.  A falsy sport (missing or the empty string) or missing
parameter object is rejected up front; otherwise the dispatch is on
`sport.toLowerCase()`.  A bag missing a field needed by the selected
sport would make the JavaScript arithmetic produce `NaN`; that degenerate
outcome (unreachable through validated submission) is modelled as an
explicit error value. -/
def calculatePerformanceScore (sport : Option String) (parameters : Option ParamBag) :
    Except String ℤ :=
  match sport, parameters with
  | none, _ => Except.error "Sport and parameters are required"
  | some _, none => Except.error "Sport and parameters are required"
  | some s, some b =>
    if s = "" then Except.error "Sport and parameters are required"
    else
      match jsToLower s with
      | "cricket" =>
        match b.toCricket with
        | some p => Except.ok (calculateCricketScore p)
        | none => Except.error "Invalid cricket parameters provided"
      | "football" =>
        match b.toFootball with
        | some p => Except.ok (calculateFootballScore p)
        | none => Except.error "Invalid football parameters provided"
      | "basketball" =>
        match b.toBasketball with
        | some p => Except.ok (calculateBasketballScore p)
        | none => Except.error "Invalid basketball parameters provided"
      | _ => Except.error ("Unsupported sport: " ++ s)

/- ------------------------------------------------------------------
Match-data structural validation, `validateMatchData` in
`src/utils/validators.js`.  Dates are modelled as integer epoch
milliseconds; an unparseable date string (the `Invalid date format`
branch) has no counterpart in this integer model.
------------------------------------------------------------------- -/

/-- The caller-supplied match submission payload.  The optional
`playerEmail` sent by the coach form is ignored by validation and dropped
by `createMatchData`, so it is not represented. -/
structure MatchInput where
  playerId : Option String := none
  coachId : Option String := none
  sport : Option String := none
  parameters : Option ParamBag := none
  date : Option ℤ := none
  calculatedScore : Option ℚ := none
deriving DecidableEq, Repr

/-- The nested value stored under the `parameters` key of the errors
object: either the missing-parameters message or the per-field errors of
`validateSportParameters`. -/
inductive ParamFieldError where
  | required
  | invalid (errorKeys : List String)
deriving DecidableEq, Repr

/-- The `errors` object built by `validateMatchData`: one optional entry
per checked field. -/
structure MatchErrors where
  playerId : Option String := none
  coachId : Option String := none
  sport : Option String := none
  parameters : Option ParamFieldError := none
  date : Option String := none
  calculatedScore : Option String := none
deriving DecidableEq, Repr

/-- Embeds `isValid: Object.keys(errors).length === 0`. -/
def MatchErrors.isValid (e : MatchErrors) : Bool :=
  e.playerId.isNone && e.coachId.isNone && e.sport.isNone &&
  e.parameters.isNone && e.date.isNone && e.calculatedScore.isNone

/-- The three supported sport tags. -/
def supportedSports : List String := ["cricket", "football", "basketball"]

/-- Embeds `validateMatchData(matchData)`; `now` is the clock reading the source
takes via `new Date()` for the future-date check. -/
def validateMatchData (matchData : MatchInput) (now : ℤ) : MatchErrors :=
  { playerId :=
      if validateRequired matchData.playerId then none
      else some "Player ID is required"
    coachId :=
      if validateRequired matchData.coachId then none
      else some "Coach ID is required"
    sport :=
      if !validateRequired matchData.sport then some "Sport is required"
      else if supportedSports.contains (matchData.sport.getD "") then none
      else some "Invalid sport type"
    parameters :=
      match matchData.parameters with
      | none => some ParamFieldError.required
      | some b =>
          let paramErrors := validateSportParameters matchData.sport b
          if paramErrors = [] then none else some (ParamFieldError.invalid paramErrors)
    date :=
      match matchData.date with
      | none => some "Match date is required"
      | some d => if now < d then some "Match date cannot be in the future" else none
    calculatedScore :=
      match matchData.calculatedScore with
      | none => none
      | some c =>
          if validateNumeric (some c) 0 100 then none
          else some "Calculated score must be between 0 and 100" }

/- ------------------------------------------------------------------
Suggestion engine, `src/services/suggestionEngine.js` (embedded in
`src/services/firestoreService.js` lines 635-1044 of the concatenated
source).  `createSuggestion`/`createRestRecommendation` from
`src/models/matchData.js` attach a `createdAt` timestamp, omitted here.
------------------------------------------------------------------- -/

structure Suggestion where
  type : String
  message : String
  priority : String
deriving DecidableEq, Repr

/-- Embeds `createSuggestion(type, message, priority)`. -/
def createSuggestion (type message priority : String) : Suggestion :=
  ⟨type, message, priority⟩

structure RestRecommendation where
  hours : ℤ
  description : String
deriving DecidableEq, Repr

/-- Embeds `createRestRecommendation(hours, description)`. -/
def createRestRecommendation (hours : ℤ) (description : String) : RestRecommendation :=
  ⟨hours, description⟩

/-- The extended-rest description template (score below 60). -/
def extendedRestDescription (hours : ℤ) : String :=
  "Your performance indicates fatigue. Take " ++ toString hours ++
  " hours of complete rest to recover properly. Focus on sleep, hydration, and light stretching."

/-- The moderate-rest description template (score 60 to below 80). -/
def moderateRestDescription (hours : ℤ) : String :=
  "Good performance but room for improvement. Take " ++ toString hours ++
  " hours of moderate rest. Light activities like walking or yoga are beneficial."

/-- The light-rest description template (score 80 and above). -/
def lightRestDescription (hours : ℤ) : String :=
  "Excellent performance! Take " ++ toString hours ++
  " hours of light rest. You can engage in light training or active recovery activities."

/-- Embeds `generateRestRecommendation(score, sport)`.  The internal
`Math.random()` draw is passed in as `rand`; every real draw satisfies
`0 ≤ rand < 1`.  `Math.floor(rand * 24) + 48` and its analogues become
integer floors over `ℚ`. -/
def generateRestRecommendation (score : ℚ) (sport : String) (rand : ℚ) : RestRecommendation :=
  if score < 60 then
    let hours := ⌊rand * 24⌋ + 48
    createRestRecommendation hours (extendedRestDescription hours)
  else if 60 ≤ score ∧ score < 80 then
    let hours := ⌊rand * 24⌋ + 24
    createRestRecommendation hours (moderateRestDescription hours)
  else
    let hours := ⌊rand * 12⌋ + 12
    createRestRecommendation hours (lightRestDescription hours)

/-- Embeds `generateCricketSuggestions(parameters, score)`. -/
def generateCricketSuggestions (p : CricketParams) (score : ℚ) : List Suggestion :=
  (if 0 < p.ballsFaced then
    let strikeRate := p.runsScored / p.ballsFaced * 100
    if strikeRate < 80 then
      [createSuggestion "technique"
        "Work on batting technique and shot selection. Practice in the nets to improve strike rate."
        "high"]
    else if 150 < strikeRate then
      [createSuggestion "technique"
        "Excellent strike rate! Focus on maintaining consistency and playing according to match situation."
        "low"]
    else []
  else []) ++
  (if 0 < p.oversBowled then
    let wicketsPerOver := p.wicketsTaken / p.oversBowled
    if wicketsPerOver < 1/5 then
      [createSuggestion "technique"
        "Focus on bowling accuracy and variation. Practice different deliveries and work on line and length."
        "high"]
    else if 1/2 < wicketsPerOver then
      [createSuggestion "technique"
        "Great bowling performance! Continue working on consistency and developing new variations."
        "low"]
    else []
  else []) ++
  (if p.catches = 0 ∧ score < 70 then
    [createSuggestion "technique"
      "Work on fielding skills. Practice catching drills and improve positioning."
      "medium"]
  else if 2 ≤ p.catches then
    [createSuggestion "technique"
      "Excellent fielding! Your catching ability is a valuable asset to the team."
      "low"]
  else [])

/-- Embeds `generateFootballSuggestions(parameters, score)`. -/
def generateFootballSuggestions (p : FootballParams) (score : ℚ) : List Suggestion :=
  let safeMinutesPlayed := max p.minutesPlayed 1
  (if p.goalsScored = 0 ∧ score < 70 then
    [createSuggestion "technique"
      "Work on finishing skills. Practice shooting from different angles and distances."
      "high"]
  else if 2 ≤ p.goalsScored then
    [createSuggestion "technique"
      "Great goal-scoring performance! Continue working on movement in the box."
      "low"]
  else []) ++
  (let passesPerMinute := p.passesCompleted / safeMinutesPlayed
   if passesPerMinute < 1/2 then
    [createSuggestion "technique"
      "Improve passing accuracy and frequency. Work on short and long passing drills."
      "medium"]
   else if 1 < passesPerMinute then
    [createSuggestion "technique"
      "Excellent passing game! Focus on creating more scoring opportunities."
      "low"]
   else []) ++
  (let tacklesPerMinute := p.tacklesMade / safeMinutesPlayed
   if tacklesPerMinute < 1/20 ∧ score < 70 then
    [createSuggestion "technique"
      "Work on defensive positioning and tackling technique. Practice 1v1 defending."
      "medium"]
   else if 1/10 < tacklesPerMinute then
    [createSuggestion "technique"
      "Strong defensive performance! Continue working on reading the game."
      "low"]
   else []) ++
  (if p.assists = 0 ∧ p.goalsScored = 0 ∧ score < 60 then
    [createSuggestion "technique"
      "Focus on creating chances for teammates. Work on vision and through balls."
      "high"]
  else [])

/-- Embeds `generateBasketballSuggestions(parameters, score)`. -/
def generateBasketballSuggestions (p : BasketballParams) (score : ℚ) : List Suggestion :=
  let safeMinutesPlayed := max p.minutesPlayed 1
  (let pointsPerMinute := p.pointsScored / safeMinutesPlayed
   if pointsPerMinute < 1/2 then
    [createSuggestion "technique"
      "Work on shooting technique and shot selection. Practice free throws and mid-range shots."
      "high"]
   else if 1 < pointsPerMinute then
    [createSuggestion "technique"
      "Excellent scoring efficiency! Focus on creating shots for teammates as well."
      "low"]
   else []) ++
  (let reboundsPerMinute := p.rebounds / safeMinutesPlayed
   if reboundsPerMinute < 1/5 then
    [createSuggestion "technique"
      "Improve rebounding by working on positioning and boxing out. Practice timing jumps."
      "medium"]
   else if 2/5 < reboundsPerMinute then
    [createSuggestion "technique"
      "Great rebounding! Your presence in the paint is valuable to the team."
      "low"]
   else []) ++
  (let assistsPerMinute := p.assists / safeMinutesPlayed
   if assistsPerMinute < 1/10 ∧ score < 70 then
    [createSuggestion "technique"
      "Work on court vision and passing skills. Practice different types of passes."
      "medium"]
   else if 1/4 < assistsPerMinute then
    [createSuggestion "technique"
      "Excellent playmaking! Continue developing leadership on the court."
      "low"]
   else []) ++
  (let stealsPerMinute := p.steals / safeMinutesPlayed
   if stealsPerMinute < 1/50 ∧ score < 70 then
    [createSuggestion "technique"
      "Focus on defensive anticipation and active hands. Work on reading passing lanes."
      "medium"]
   else if 2/25 < stealsPerMinute then
    [createSuggestion "technique"
      "Great defensive instincts! Balance aggression with smart positioning."
      "low"]
   else [])

/-- Embeds `generateTrainingSuggestions(score, sport, parameters)`: one general
score-bucket suggestion, then the sport-specific ones.  A bag without the
full field set of the selected sport would drive every per-metric threshold
comparison to `NaN` (hence false) in the source; it contributes no
sport-specific suggestions here. -/
def generateTrainingSuggestions (score : ℚ) (sport : String) (parameters : ParamBag) :
    List Suggestion :=
  let general :=
    if 90 ≤ score then
      [createSuggestion "general"
        "Outstanding performance! Maintain your current training routine and focus on consistency."
        "low"]
    else if 80 ≤ score then
      [createSuggestion "general"
        "Very good performance! Fine-tune specific skills to reach the next level."
        "medium"]
    else if 70 ≤ score then
      [createSuggestion "general"
        "Good performance with room for improvement. Focus on consistent practice."
        "medium"]
    else if 60 ≤ score then
      [createSuggestion "general"
        "Average performance. Identify weak areas and dedicate extra practice time."
        "high"]
    else
      [createSuggestion "general"
        "Performance needs improvement. Consider working with a coach on fundamentals."
        "high"]
  let sportSpecific :=
    match jsToLower sport with
    | "cricket" =>
      match parameters.toCricket with
      | some p => generateCricketSuggestions p score
      | none => []
    | "football" =>
      match parameters.toFootball with
      | some p => generateFootballSuggestions p score
      | none => []
    | "basketball" =>
      match parameters.toBasketball with
      | some p => generateBasketballSuggestions p score
      | none => []
    | _ => []
  general ++ sportSpecific

/-- Embeds `generateTrendBasedSuggestions(recentScores, sport)`.  The JavaScript
window selections `recentScores.slice(-3)` and
`recentScores.slice(-6, -3)` translate to the drop/take combinations
below (truncated natural subtraction matches the clamping of negative
slice indices).  The `sport` argument is unused in the source as well. -/
def generateTrendBasedSuggestions (recentScores : List ℚ) (sport : String) : List Suggestion :=
  if recentScores.length < 2 then []
  else
    let recent := recentScores.drop (recentScores.length - 3)
    let older := (recentScores.take (recentScores.length - 3)).drop (recentScores.length - 6)
    if older.length = 0 then []
    else
      let recentAvg := recent.sum / recent.length
      let olderAvg := older.sum / older.length
      let difference := recentAvg - olderAvg
      if 10 < difference then
        [createSuggestion "general"
          "Excellent improvement trend! Your hard work is paying off. Maintain this momentum."
          "low"]
      else if 5 < difference then
        [createSuggestion "general"
          "Good improvement trend! Continue your current training approach."
          "low"]
      else if difference < -10 then
        [createSuggestion "general"
          "Performance has declined recently. Consider reviewing your training routine and getting adequate rest."
          "high"]
      else if difference < -5 then
        [createSuggestion "general"
          "Slight decline in performance. Focus on fundamentals and ensure proper recovery."
          "medium"]
      else
        [createSuggestion "general"
          "Consistent performance! Consider adding new challenges to break through plateaus."
          "medium"]

/-- The value returned by `generateComprehensiveSuggestions` (its `score`,
`sport` and `generatedAt` echo fields are omitted). -/
structure SuggestionPackage where
  restRecommendation : RestRecommendation
  suggestions : List Suggestion
deriving DecidableEq, Repr

/-- Embeds `generateComprehensiveSuggestions(score, sport, parameters,
recentScores)`; `rand` feeds the internal draw of the rest recommendation. -/
def generateComprehensiveSuggestions (score : ℚ) (sport : String) (parameters : ParamBag)
    (recentScores : List ℚ) (rand : ℚ) : SuggestionPackage :=
  { restRecommendation := generateRestRecommendation score sport rand
    suggestions :=
      generateTrainingSuggestions score sport parameters ++
      generateTrendBasedSuggestions recentScores sport }

/- ------------------------------------------------------------------
Document store and match orchestrator, `src/services/matchService.js`
with the store primitives of `src/services/firestoreService.js`.
Collections are association lists keyed by document id; the `matches`
collection uses numeric auto-ids.  Only the fields the orchestrator
reads or writes are represented.
------------------------------------------------------------------- -/

structure UserProfile where
  email : Option String := none
deriving DecidableEq, Repr

/-- A persisted match document.  Matches created through
`createMatchData` never carry a `playerEmail` field (the constructor
drops it), but pre-existing documents may. -/
structure StoredMatch where
  id : ℕ
  playerId : Option String := none
  playerEmail : Option String := none
  coachId : Option String := none
  sport : Option String := none
  parameters : Option ParamBag := none
  date : Option ℤ := none
  calculatedScore : Option ℚ := none
  suggestions : List String := []
  restRecommendation : Option RestRecommendation := none
deriving DecidableEq, Repr

/-- A player statistics document; any field may be absent, and the
orchestrator reads absent counters as 0 (`player.matchCount || 0`). -/
structure PlayerDoc where
  currentScore : Option ℚ := none
  matchCount : Option ℚ := none
  totalScore : Option ℚ := none
  averageScore : Option ℚ := none
  lastMatchDate : Option ℤ := none
deriving DecidableEq, Repr

/-- The document store state visible to the orchestrator. -/
structure Store where
  matchDocs : List StoredMatch := []
  players : List (String × PlayerDoc) := []
  users : List (String × UserProfile) := []
  nextId : ℕ := 0
deriving DecidableEq, Repr

/-- Replacing the value stored under a key of an association list
(Firestore `update` merges, and every write below supplies the full
statistics field set). -/
def updateAssoc (l : List (String × α)) (key : String) (value : α) : List (String × α) :=
  l.map fun entry => if entry.1 = key then (key, value) else entry

/-- Embeds `updatePlayerStats`, a `firestoreService.update` on the players
collection; updating a nonexistent document is a store error. -/
def updatePlayerStats (st : Store) (playerId : String) (stats : PlayerDoc) :
    Except String Store :=
  if (st.players.lookup playerId).isSome then
    Except.ok { st with players := updateAssoc st.players playerId stats }
  else Except.error "StoreError: not-found"

/-- The date sort key `a.date?.toMillis?.() || 0`. -/
def StoredMatch.dateKey (m : StoredMatch) : ℤ := m.date.getD 0

/-- One step of the stable descending insertion used to model the
in-memory `sort((a, b) => bTime - aTime)`. -/
def insertByDateDesc (m : StoredMatch) : List StoredMatch → List StoredMatch
  | [] => [m]
  | x :: xs => if x.dateKey < m.dateKey then m :: x :: xs else x :: insertByDateDesc m xs

/-- Stable sort, newest first, of a match result set. -/
def sortByDateDesc (l : List StoredMatch) : List StoredMatch :=
  l.foldr insertByDateDesc []

/-- Embeds `getUserProfile(userId)`: read of the `users` collection. -/
def getUserProfile (st : Store) (userId : String) : Option UserProfile :=
  st.users.lookup userId

/-- Embeds `getPlayerMatches(playerId)` (no sport filter): resolve the email of the player, query matches by `playerEmail`, fall back to a `playerId` query
when that finds nothing, and sort newest first in memory.  A missing
profile or email yields the empty list. -/
def getPlayerMatches (st : Store) (playerId : String) : List StoredMatch :=
  match getUserProfile st playerId with
  | none => []
  | some profile =>
    match profile.email with
    | none => []
    | some email =>
      let byEmail := st.matchDocs.filter fun m => m.playerEmail = some email
      let found := if byEmail = [] then
          st.matchDocs.filter fun m => m.playerId = some playerId
        else byEmail
      sortByDateDesc found

/-- Embeds `getPlayerRecentMatches(playerId, limit)`: the same query and sort,
then `slice(0, limit)`. -/
def getPlayerRecentMatches (st : Store) (playerId : String) (limit : ℕ) : List StoredMatch :=
  (getPlayerMatches st playerId).take limit

/-- The statistics object written by `updatePlayerStatistics`: increment
the counters and re-round the average. -/
def updatedPlayerStats (player : PlayerDoc) (newScore : ℚ) (now : ℤ) : PlayerDoc :=
  let currentMatchCount := player.matchCount.getD 0
  let currentTotalScore := player.totalScore.getD 0
  let newMatchCount := currentMatchCount + 1
  let newTotalScore := currentTotalScore + newScore
  let newAverageScore := newTotalScore / newMatchCount
  { currentScore := some newScore
    matchCount := some newMatchCount
    totalScore := some newTotalScore
    averageScore := some (round2 newAverageScore)
    lastMatchDate := some now }

/-- Embeds `updatePlayerStatistics(playerId, newScore)`: read the player
document (error when absent), then write the incremented statistics. -/
def updatePlayerStatistics (st : Store) (playerId : String) (newScore : ℚ) (now : ℤ) :
    Except String Store :=
  match st.players.lookup playerId with
  | none => Except.error "Player not found"
  | some player => updatePlayerStats st playerId (updatedPlayerStats player newScore now)

/-- The statistics object written by `recalculatePlayerStatistics` from
the full remaining match list (already sorted newest first): an empty
list resets everything; otherwise `matchCount` counts every match while
the total and average are taken over the non-null scores only. -/
def recalculatedPlayerStats (matchList : List StoredMatch) : PlayerDoc :=
  match matchList with
  | [] =>
    { currentScore := some 0, matchCount := some 0, totalScore := some 0,
      averageScore := some 0, lastMatchDate := none }
  | lastMatch :: _ =>
    let validScores := matchList.filterMap StoredMatch.calculatedScore
    let totalScore := validScores.sum
    let averageScore := if 0 < validScores.length then totalScore / validScores.length else 0
    { currentScore := some (lastMatch.calculatedScore.getD 0)
      matchCount := some (matchList.length : ℚ)
      totalScore := some totalScore
      averageScore := some (round2 averageScore)
      lastMatchDate := lastMatch.date }

/-- Embeds `recalculatePlayerStatistics(playerId)`: fetch all remaining matches
and overwrite the aggregate with statistics recomputed from scratch. -/
def recalculatePlayerStatistics (st : Store) (playerId : String) : Except String Store :=
  updatePlayerStats st playerId (recalculatedPlayerStats (getPlayerMatches st playerId))

/-- Embeds `getMatchById(matchId)`: read of the `matches` collection. -/
def getMatchById (st : Store) (matchId : ℕ) : Option StoredMatch :=
  st.matchDocs.find? fun m => m.id = matchId

/-- Embeds `deleteMatch(matchId)`: look the match up (error when absent), delete
it, then fully recompute the statistics of the owning player. -/
def deleteMatch (st : Store) (matchId : ℕ) : Except String Unit × Store :=
  match getMatchById st matchId with
  | none => (Except.error "Match not found", st)
  | some m =>
    let st1 := { st with matchDocs := st.matchDocs.filter fun mm => mm.id ≠ matchId }
    match recalculatePlayerStatistics st1 (m.playerId.getD "") with
    | Except.error e => (Except.error e, st1)
    | Except.ok st2 => (Except.ok (), st2)

/-- Embeds `createMatchData` applied to the submission payload plus the derived
fields, as persisted by `firestoreService.create` into the matches collection:
only the schema fields survive (the `playerEmail` sent by the form is dropped). -/
def createMatchData (m : MatchInput) (calculatedScore : ℚ) (suggestions : List String)
    (restRecommendation : RestRecommendation) (id : ℕ) : StoredMatch :=
  { id := id
    playerId := m.playerId
    playerEmail := none
    coachId := m.coachId
    sport := m.sport
    parameters := m.parameters
    date := m.date
    calculatedScore := some calculatedScore
    suggestions := suggestions
    restRecommendation := some restRecommendation }

/-- Embeds `submitMatchData(matchData)`: structural validation, sport-parameter
validation, score calculation, recent-score retrieval, suggestion
generation, match persistence, then incremental statistics update.  The
pair returned is the outcome together with the store as left behind:
errors raised before persistence leave the store untouched, while a
statistics failure after the match write leaves the match persisted (the
accepted non-transactional gap). -/
def submitMatchData (st : Store) (m : MatchInput) (now : ℤ) (rand : ℚ) :
    Except String StoredMatch × Store :=
  let matchValidation := validateMatchData m now
  if matchValidation.isValid = false then
    (Except.error "Invalid match data", st)
  else
    let paramValidation := validateSportParameters m.sport (m.parameters.getD {})
    if paramValidation ≠ [] then
      (Except.error "Invalid sport parameters", st)
    else
      match calculatePerformanceScore m.sport m.parameters with
      | Except.error e => (Except.error e, st)
      | Except.ok calculatedScore =>
        let recentMatches := getPlayerRecentMatches st (m.playerId.getD "") 10
        let recentScores := recentMatches.filterMap StoredMatch.calculatedScore
        let suggestionPackage :=
          generateComprehensiveSuggestions (calculatedScore : ℚ) (m.sport.getD "")
            (m.parameters.getD {}) recentScores rand
        let completeMatchData :=
          createMatchData m (calculatedScore : ℚ)
            (suggestionPackage.suggestions.map Suggestion.message)
            suggestionPackage.restRecommendation st.nextId
        let st1 := { st with matchDocs := st.matchDocs ++ [completeMatchData],
                             nextId := st.nextId + 1 }
        match updatePlayerStatistics st1 (m.playerId.getD "") (calculatedScore : ℚ) now with
        | Except.error e => (Except.error e, st1)
        | Except.ok st2 => (Except.ok completeMatchData, st2)

/- ------------------------------------------------------------------
Synchronization manager, `src/services/realtimeService.js`.  Each
subscription id maps to the set of underlying store watches opened for
it; watch handles are numbered.  A JavaScript `Map` cannot hold two
entries with one key, so deletion removes every entry under the key.
------------------------------------------------------------------- -/

structure RealtimeState where
  subscriptions : List (String × List ℕ) := []
  activeWatches : List ℕ := []
deriving DecidableEq, Repr

/-- Embeds `unsubscribe(subscriptionId)`: when the id is registered, release its
underlying watches and drop the entry; otherwise do nothing. -/
def unsubscribe (st : RealtimeState) (subscriptionId : String) : RealtimeState :=
  match st.subscriptions.lookup subscriptionId with
  | some watches =>
    { subscriptions := st.subscriptions.filter fun entry => entry.1 ≠ subscriptionId
      activeWatches := st.activeWatches.filter fun w => w ∉ watches }
  | none => st

/-- Embeds `isSubscriptionActive(subscriptionId)`. -/
def isSubscriptionActive (st : RealtimeState) (subscriptionId : String) : Bool :=
  (st.subscriptions.lookup subscriptionId).isSome

/-- Embeds `unsubscribeAll()`: unsubscribe every registered id, then clear the
map. -/
def unsubscribeAll (st : RealtimeState) : RealtimeState :=
  let cleared := (st.subscriptions.map Prod.fst).foldl unsubscribe st
  { cleared with subscriptions := [] }

/- ------------------------------------------------------------------
Specification-side definitions.
------------------------------------------------------------------- -/

/-- The PlayerAggregate invariant of the specification, over a player
statistics document: when `matchCount` is positive the stored average is
the 2-decimal rounding of `totalScore / matchCount`, and it is 0 when
`matchCount` is 0. -/
def aggregateInvariant (p : PlayerDoc) : Prop :=
  (0 < p.matchCount.getD 0 →
    p.averageScore.getD 0 = round2 (p.totalScore.getD 0 / p.matchCount.getD 0)) ∧
  (p.matchCount.getD 0 = 0 → p.averageScore.getD 0 = 0)

instance (p : PlayerDoc) : Decidable (aggregateInvariant p) := by
  unfold aggregateInvariant; infer_instance

/-- Modelled from the amended trend description: the mean of a score
list. -/
def meanScore (l : List ℚ) : ℚ := l.sum / l.length

/-- Modelled from the amended trend description: the last three elements
of the score list (with a most-recent-first list these are the oldest
scores). -/
def lastThreeScores (l : List ℚ) : List ℚ := l.drop (l.length - 3)

/-- Modelled from the amended trend description: the up-to-three elements
immediately preceding the last three. -/
def precedingThreeScores (l : List ℚ) : List ℚ :=
  (l.take (l.length - 3)).drop (l.length - 6)

/-- Modelled from the amended trend description: the classifying
difference of window means. -/
def trendDifference (l : List ℚ) : ℚ :=
  meanScore (lastThreeScores l) - meanScore (precedingThreeScores l)

/-- Modelled from the amended trend description: the single suggestion
the classifier emits for a given difference. -/
def trendClassify (d : ℚ) : Suggestion :=
  if 10 < d then
    createSuggestion "general"
      "Excellent improvement trend! Your hard work is paying off. Maintain this momentum."
      "low"
  else if 5 < d then
    createSuggestion "general"
      "Good improvement trend! Continue your current training approach."
      "low"
  else if d < -10 then
    createSuggestion "general"
      "Performance has declined recently. Consider reviewing your training routine and getting adequate rest."
      "high"
  else if d < -5 then
    createSuggestion "general"
      "Slight decline in performance. Focus on fundamentals and ensure proper recovery."
      "medium"
  else
    createSuggestion "general"
      "Consistent performance! Consider adding new challenges to break through plateaus."
      "medium"

/- ------------------------------------------------------------------
Theorems.
------------------------------------------------------------------- -/

lemma jsRound_clamped_nonneg (t : ℚ) : 0 ≤ jsRound (min 100 (max 0 t)) := by
  have hx0 : (0 : ℚ) ≤ min 100 (max 0 t) := le_min (by norm_num) (le_max_left 0 t)
  have : ((0 : ℤ) : ℚ) ≤ min 100 (max 0 t) + 1/2 := by push_cast; linarith
  exact Int.le_floor.mpr this

lemma jsRound_clamped_le (t : ℚ) : jsRound (min 100 (max 0 t)) ≤ 100 := by
  have hx1 : min 100 (max 0 t) ≤ 100 := min_le_left _ _
  have : min 100 (max 0 t) + 1/2 < ((101 : ℤ) : ℚ) := by push_cast; linarith
  have h := Int.floor_lt.mpr this
  unfold jsRound
  omega

lemma sportParams_score_bounds (sp : SportParams) : 0 ≤ sp.score ∧ sp.score ≤ 100 := by
  cases sp with
  | cricket p => exact ⟨jsRound_clamped_nonneg _, jsRound_clamped_le _⟩
  | football p => exact ⟨jsRound_clamped_nonneg _, jsRound_clamped_le _⟩
  | basketball p => exact ⟨jsRound_clamped_nonneg _, jsRound_clamped_le _⟩

/-- Claim C4: for every supported sport tag and every parameter set whose
fields pass the per-sport range validation, the score dispatch succeeds
and returns an integer in [0, 100] (integrality is the return type `ℤ`
of the embedded `Math.round`). -/
theorem c4_score_within_bounds (sp : SportParams)
    (hvalid : validateSportParameters (some sp.tag) sp.bag = []) :
    ∃ n : ℤ, calculatePerformanceScore (some sp.tag) (some sp.bag) = Except.ok n ∧
      0 ≤ n ∧ n ≤ 100 := by
  refine ⟨sp.score, ?_, (sportParams_score_bounds sp).1, (sportParams_score_bounds sp).2⟩
  cases sp with
  | cricket p => rfl
  | football p => rfl
  | basketball p => rfl

theorem c4_score_within_bounds_witness :
    validateSportParameters (some (SportParams.cricket ⟨120, 100, 3, 1, 10⟩).tag)
      (SportParams.cricket ⟨120, 100, 3, 1, 10⟩).bag = [] ∧
    ∃ n : ℤ,
      calculatePerformanceScore (some (SportParams.cricket ⟨120, 100, 3, 1, 10⟩).tag)
        (some (SportParams.cricket ⟨120, 100, 3, 1, 10⟩).bag) = Except.ok n ∧
      0 ≤ n ∧ n ≤ 100 :=
  ⟨by decide, c4_score_within_bounds (SportParams.cricket ⟨120, 100, 3, 1, 10⟩) (by decide)⟩

/-- Claim C3: the cricket score for runsScored 100, ballsFaced 60 with no
bowling or fielding contribution.  The code computes batting 100 (strike
rate 166.67 capped) weighted at 0.5, bowling 0 and fielding 0, for a
total of 50 — not greater than 80 as the claim (and the test fixture shipped in the repository) require. -/
theorem c3_cricket_test_input_evaluates_to_50 :
    calculateCricketScore ⟨100, 60, 0, 0, 0⟩ = 50 ∧
    ¬ (80 : ℤ) < calculateCricketScore ⟨100, 60, 0, 0, 0⟩ := by
  have h : calculateCricketScore ⟨100, 60, 0, 0, 0⟩ = 50 := by
    norm_num [calculateCricketScore, jsRound]
  exact ⟨h, by rw [h]; decide⟩

lemma floor_draw24_bounds (rand : ℚ) (h0 : 0 ≤ rand) (h1 : rand < 1) :
    0 ≤ ⌊rand * 24⌋ ∧ ⌊rand * 24⌋ ≤ 23 := by
  constructor
  · exact Int.le_floor.mpr (by push_cast; exact mul_nonneg h0 (by norm_num))
  · have h : rand * 24 < ((24 : ℤ) : ℚ) := by push_cast; nlinarith
    have := Int.floor_lt.mpr h
    omega

lemma floor_draw12_bounds (rand : ℚ) (h0 : 0 ≤ rand) (h1 : rand < 1) :
    0 ≤ ⌊rand * 12⌋ ∧ ⌊rand * 12⌋ ≤ 11 := by
  constructor
  · exact Int.le_floor.mpr (by push_cast; exact mul_nonneg h0 (by norm_num))
  · have h : rand * 12 < ((12 : ℤ) : ℚ) := by push_cast; nlinarith
    have := Int.floor_lt.mpr h
    omega

lemma generateRestRecommendation_eq (score : ℚ) (sport : String) (rand : ℚ) :
    generateRestRecommendation score sport rand =
      if score < 60 then
        ⟨⌊rand * 24⌋ + 48, extendedRestDescription (⌊rand * 24⌋ + 48)⟩
      else if 60 ≤ score ∧ score < 80 then
        ⟨⌊rand * 24⌋ + 24, moderateRestDescription (⌊rand * 24⌋ + 24)⟩
      else
        ⟨⌊rand * 12⌋ + 12, lightRestDescription (⌊rand * 12⌋ + 12)⟩ := rfl

/-- Claim C5: for every score and every value of the internal random
draw, the rest recommendation stays inside the score-dependent band:
below 60 the hours lie in [48, 72] with the extended-rest description,
in [60, 80) the hours lie in [24, 48] with the moderate-rest
description, and at 80 or above the hours lie in [12, 24] with the
light-rest description. -/
theorem c5_rest_recommendation_bands (score : ℚ) (sport : String) (rand : ℚ)
    (h0 : 0 ≤ rand) (h1 : rand < 1) :
    (score < 60 →
      48 ≤ (generateRestRecommendation score sport rand).hours ∧
      (generateRestRecommendation score sport rand).hours ≤ 72 ∧
      (generateRestRecommendation score sport rand).description =
        extendedRestDescription (generateRestRecommendation score sport rand).hours) ∧
    (60 ≤ score → score < 80 →
      24 ≤ (generateRestRecommendation score sport rand).hours ∧
      (generateRestRecommendation score sport rand).hours ≤ 48 ∧
      (generateRestRecommendation score sport rand).description =
        moderateRestDescription (generateRestRecommendation score sport rand).hours) ∧
    (80 ≤ score →
      12 ≤ (generateRestRecommendation score sport rand).hours ∧
      (generateRestRecommendation score sport rand).hours ≤ 24 ∧
      (generateRestRecommendation score sport rand).description =
        lightRestDescription (generateRestRecommendation score sport rand).hours) := by
  have h24 := floor_draw24_bounds rand h0 h1
  have h12 := floor_draw12_bounds rand h0 h1
  rw [generateRestRecommendation_eq]
  refine ⟨fun hs => ?_, fun h60 h80 => ?_, fun h80 => ?_⟩
  · rw [if_pos hs]
    exact ⟨by dsimp; omega, by dsimp; omega, rfl⟩
  · rw [if_neg (not_lt.mpr h60), if_pos ⟨h60, h80⟩]
    exact ⟨by dsimp; omega, by dsimp; omega, rfl⟩
  · rw [if_neg (not_lt.mpr (by linarith)),
      if_neg (by intro hc; exact absurd h80 (not_le.mpr hc.2))]
    exact ⟨by dsimp; omega, by dsimp; omega, rfl⟩

theorem c5_rest_recommendation_bands_witness :
    (0 : ℚ) ≤ 1/2 ∧ (1/2 : ℚ) < 1 ∧ (50 : ℚ) < 60 ∧
    48 ≤ (generateRestRecommendation 50 "general" (1/2)).hours ∧
    (generateRestRecommendation 50 "general" (1/2)).hours ≤ 72 ∧
    (generateRestRecommendation 50 "general" (1/2)).description =
      extendedRestDescription (generateRestRecommendation 50 "general" (1/2)).hours :=
  have h := (c5_rest_recommendation_bands 50 "general" (1/2) (by norm_num) (by norm_num)).1
    (by norm_num)
  ⟨by norm_num, by norm_num, by norm_num, h.1, h.2.1, h.2.2⟩

/-- Claim C9: the hours field of the rest recommendation is an integer (the return
type of the embedded `Math.floor` draw) strictly below the upper end of
its band: scores below 60 give hours in 48..71, scores in [60, 80) give
hours in 24..47, and scores at 80 or above give hours in 12..23. -/
theorem c9_rest_hours_strictly_below_band_top (score : ℚ) (sport : String) (rand : ℚ)
    (h0 : 0 ≤ rand) (h1 : rand < 1) :
    (score < 60 →
      48 ≤ (generateRestRecommendation score sport rand).hours ∧
      (generateRestRecommendation score sport rand).hours ≤ 71) ∧
    (60 ≤ score → score < 80 →
      24 ≤ (generateRestRecommendation score sport rand).hours ∧
      (generateRestRecommendation score sport rand).hours ≤ 47) ∧
    (80 ≤ score →
      12 ≤ (generateRestRecommendation score sport rand).hours ∧
      (generateRestRecommendation score sport rand).hours ≤ 23) := by
  have h24 := floor_draw24_bounds rand h0 h1
  have h12 := floor_draw12_bounds rand h0 h1
  rw [generateRestRecommendation_eq]
  refine ⟨fun hs => ?_, fun h60 h80 => ?_, fun h80 => ?_⟩
  · rw [if_pos hs]
    exact ⟨by dsimp; omega, by dsimp; omega⟩
  · rw [if_neg (not_lt.mpr h60), if_pos ⟨h60, h80⟩]
    exact ⟨by dsimp; omega, by dsimp; omega⟩
  · rw [if_neg (not_lt.mpr (by linarith)),
      if_neg (by intro hc; exact absurd h80 (not_le.mpr hc.2))]
    exact ⟨by dsimp; omega, by dsimp; omega⟩

theorem c9_rest_hours_strictly_below_band_top_witness :
    (0 : ℚ) ≤ 9/10 ∧ (9/10 : ℚ) < 1 ∧ (85 : ℚ) ≥ 80 ∧
    12 ≤ (generateRestRecommendation 85 "general" (9/10)).hours ∧
    (generateRestRecommendation 85 "general" (9/10)).hours ≤ 23 :=
  have h := (c9_rest_hours_strictly_below_band_top 85 "general" (9/10) (by norm_num)
    (by norm_num)).2.2 (by norm_num)
  ⟨by norm_num, by norm_num, by norm_num, h.1, h.2⟩

/-- Claim C6: a submission payload that simultaneously has a future date,
an unsupported sport, and an empty (or missing) playerId is rejected by
`validateMatchData` with all three violations present in the errors
object at once. -/
theorem c6_validation_reports_all_violations (m : MatchInput) (now d : ℤ) (s : String)
    (hdate : m.date = some d) (hfut : now < d)
    (hsport : m.sport = some s) (hunsup : supportedSports.contains s = false)
    (hplayer : validateRequired m.playerId = false) :
    (validateMatchData m now).playerId.isSome = true ∧
    (validateMatchData m now).sport.isSome = true ∧
    (validateMatchData m now).date.isSome = true ∧
    (validateMatchData m now).isValid = false := by
  have hp : (validateMatchData m now).playerId = some "Player ID is required" := by
    simp [validateMatchData, hplayer]
  have hd : (validateMatchData m now).date = some "Match date cannot be in the future" := by
    simp [validateMatchData, hdate, hfut]
  have hs : (validateMatchData m now).sport.isSome = true := by
    simp only [validateMatchData]
    cases hreq : validateRequired m.sport with
    | false => simp
    | true =>
      simp [hsport]
      simpa using hunsup
  exact ⟨by rw [hp]; rfl, hs, by rw [hd]; rfl, by simp [MatchErrors.isValid, hp]⟩

theorem c6_validation_reports_all_violations_witness :
    (MatchInput.date ⟨some "", some "coach1", some "tennis", some {}, some 10, none⟩ =
        some 10) ∧
    ((5 : ℤ) < 10) ∧
    (supportedSports.contains "tennis" = false) ∧
    (validateRequired (MatchInput.playerId
        ⟨some "", some "coach1", some "tennis", some {}, some 10, none⟩) = false) ∧
    ((validateMatchData ⟨some "", some "coach1", some "tennis", some {}, some 10, none⟩
        5).playerId.isSome = true ∧
      (validateMatchData ⟨some "", some "coach1", some "tennis", some {}, some 10, none⟩
        5).sport.isSome = true ∧
      (validateMatchData ⟨some "", some "coach1", some "tennis", some {}, some 10, none⟩
        5).date.isSome = true ∧
      (validateMatchData ⟨some "", some "coach1", some "tennis", some {}, some 10, none⟩
        5).isValid = false) :=
  ⟨rfl, by decide, by decide, by decide,
    c6_validation_reports_all_violations
      ⟨some "", some "coach1", some "tennis", some {}, some 10, none⟩ 5 10 "tennis"
      rfl (by decide) rfl (by decide) (by decide)⟩

lemma lookup_filter_ne_key (l : List (String × List ℕ)) (key : String) :
    (l.filter fun entry => entry.1 ≠ key).lookup key = none := by
  induction l with
  | nil => simp
  | cons e t ih =>
    rcases e with ⟨k, v⟩
    by_cases hk : k = key
    · subst hk
      simpa using ih
    · have hbeq : (key == k) = false := by simp [Ne.symm hk]
      have hdec : decide (k = key) = false := by simp [hk]
      simp only [List.filter_cons, decide_not, hdec, Bool.not_false, if_true, List.lookup, hbeq]
      simpa [decide_not] using ih

lemma unsubscribe_lookup_none (st : RealtimeState) (subscriptionId : String) :
    ((unsubscribe st subscriptionId).subscriptions.lookup subscriptionId) = none := by
  unfold unsubscribe
  cases h : st.subscriptions.lookup subscriptionId with
  | none => exact h
  | some watches => exact lookup_filter_ne_key _ _

lemma unsubscribe_of_lookup_none (st : RealtimeState) (subscriptionId : String)
    (h : st.subscriptions.lookup subscriptionId = none) :
    unsubscribe st subscriptionId = st := by
  unfold unsubscribe
  rw [h]

/-- Claim C8: tearing a subscription down is idempotent — after
`unsubscribe(id)` the id is no longer active, a second `unsubscribe(id)`
leaves the state unchanged, and `unsubscribeAll` deactivates every id. -/
theorem c8_unsubscribe_idempotent (st : RealtimeState) (subscriptionId : String) :
    isSubscriptionActive (unsubscribe st subscriptionId) subscriptionId = false ∧
    unsubscribe (unsubscribe st subscriptionId) subscriptionId =
      unsubscribe st subscriptionId ∧
    ∀ id : String, isSubscriptionActive (unsubscribeAll st) id = false := by
  refine ⟨?_, ?_, ?_⟩
  · unfold isSubscriptionActive
    rw [unsubscribe_lookup_none]
    rfl
  · exact unsubscribe_of_lookup_none _ _ (unsubscribe_lookup_none st subscriptionId)
  · intro id
    unfold isSubscriptionActive unsubscribeAll
    simp

/-- Claim C2, counterexample: `[0, 20, 20, 20]` has fewer than 6
elements, yet the generator emits a trend suggestion (the guard only
requires the preceding window to be nonempty, which happens from length
4 on). -/
theorem c2_trend_counterexample :
    generateTrendBasedSuggestions [0, 20, 20, 20] "cricket" ≠ [] := by
  unfold generateTrendBasedSuggestions
  norm_num

/-- Claim C2 (amended): the generator emits no trend suggestion when the
list has fewer than 4 elements; from 4 elements on it emits exactly one
suggestion, classified by the difference d = mean of the LAST 3 elements
minus mean of the up-to-3 elements immediately preceding them (with a
most-recent-first list the last 3 are the oldest scores): d > 10 the
excellent-improvement suggestion (priority low), d > 5 the
good-improvement suggestion (low), d < -10 the significant-decline
suggestion (high), d < -5 the slight-decline suggestion (medium),
otherwise the consistent suggestion (medium). -/
theorem c2_amended_trend_classification (l : List ℚ) (sport : String) :
    (l.length < 4 → generateTrendBasedSuggestions l sport = []) ∧
    (4 ≤ l.length →
      generateTrendBasedSuggestions l sport = [trendClassify (trendDifference l)]) := by
  constructor
  · intro h4
    by_cases h2 : l.length < 2
    · simp [generateTrendBasedSuggestions, h2]
    · have h3 : l.length - 3 = 0 := by omega
      simp [generateTrendBasedSuggestions, h2, h3]
  · intro h4
    have h2 : ¬ l.length < 2 := by omega
    have hlen : ((l.take (l.length - 3)).drop (l.length - 6)).length ≠ 0 := by
      simp only [List.length_drop, List.length_take]
      omega
    simp only [generateTrendBasedSuggestions, trendClassify, trendDifference, meanScore,
      lastThreeScores, precedingThreeScores, h2, if_false, hlen, ite_false]
    split_ifs <;> rfl

theorem c2_amended_trend_classification_witness :
    ([1, 2, 3] : List ℚ).length < 4 ∧
    generateTrendBasedSuggestions [1, 2, 3] "football" = [] ∧
    4 ≤ ([0, 0, 0, 20, 20, 20] : List ℚ).length ∧
    generateTrendBasedSuggestions [0, 0, 0, 20, 20, 20] "football" =
      [trendClassify (trendDifference [0, 0, 0, 20, 20, 20])] :=
  ⟨by norm_num,
   (c2_amended_trend_classification [1, 2, 3] "football").1 (by norm_num),
   by norm_num,
   (c2_amended_trend_classification [0, 0, 0, 20, 20, 20] "football").2 (by norm_num)⟩

/-- Claim C1, counterexample: recomputation over a remaining set holding
one match with score 80 and one with a null score stores matchCount 2
and totalScore 80 but averageScore 80 (the mean over the single non-null
score), while the invariant demands round2(80 / 2) = 40. -/
theorem c1_recalculation_counterexample :
    ¬ aggregateInvariant (recalculatedPlayerStats
      [{ id := 0, calculatedScore := some 80 }, { id := 1, calculatedScore := none }]) := by
  intro h
  have h1 := h.1
  norm_num [recalculatedPlayerStats, aggregateInvariant, round2, jsRound,
    List.filterMap_cons] at h1

lemma length_filterMap_of_all_isSome (l : List StoredMatch)
    (h : ∀ m ∈ l, m.calculatedScore.isSome = true) :
    (l.filterMap StoredMatch.calculatedScore).length = l.length := by
  induction l with
  | nil => rfl
  | cons m rest ih =>
    have hm := h m (List.mem_cons_self m rest)
    rcases Option.isSome_iff_exists.mp hm with ⟨v, hv⟩
    simp [List.filterMap_cons, hv, ih fun x hx => h x (List.mem_cons_of_mem m hx)]

lemma round2_zero : round2 0 = 0 := by
  norm_num [round2, jsRound]

/-- Claim C1 (amended): the incremental update establishes the
PlayerAggregate invariant for every prior aggregate state, and the full
recomputation establishes it for every list of remaining records all of
whose calculatedScore values are non-null; with a null-score record
present the recomputation instead stores the rounded mean over only the
non-null scores against a matchCount covering every record. -/
theorem c1_amended_aggregate_invariant :
    (∀ (player : PlayerDoc) (newScore : ℚ) (now : ℤ),
      aggregateInvariant (updatedPlayerStats player newScore now)) ∧
    (∀ matchList : List StoredMatch,
      (∀ m ∈ matchList, m.calculatedScore.isSome = true) →
      aggregateInvariant (recalculatedPlayerStats matchList)) := by
  constructor
  · intro player newScore now
    unfold updatedPlayerStats aggregateInvariant
    simp only [Option.getD_some]
    constructor
    · intro _
      trivial
    · intro h0
      rw [h0, div_zero, round2_zero]
  · intro matchList hall
    cases matchList with
    | nil =>
      unfold recalculatedPlayerStats aggregateInvariant
      simp
    | cons m rest =>
      have hlen := length_filterMap_of_all_isSome (m :: rest) hall
      unfold recalculatedPlayerStats aggregateInvariant
      simp only [Option.getD_some, hlen]
      constructor
      · intro _
        rw [if_pos (by simp [hlen])]
      · intro h0
        exfalso
        have hne : ((m :: rest).length : ℚ) ≠ 0 := by
          have hpos : 0 < (m :: rest).length := Nat.succ_pos rest.length
          exact_mod_cast Nat.pos_iff_ne_zero.mp hpos
        exact hne h0

theorem c1_amended_aggregate_invariant_witness :
    aggregateInvariant (updatedPlayerStats {} 50 0) ∧
    aggregateInvariant (recalculatedPlayerStats [{ id := 0, calculatedScore := some 60 }]) :=
  ⟨c1_amended_aggregate_invariant.1 {} 50 0,
   c1_amended_aggregate_invariant.2 [{ id := 0, calculatedScore := some 60 }] (by simp)⟩

/-- Claim C10: deleting a match id with no stored match record raises the
not-found error and leaves the store untouched — the existence check
precedes both the match deletion and the statistics rewrite. -/
theorem c10_delete_missing_match_is_noop (st : Store) (matchId : ℕ)
    (h : getMatchById st matchId = none) :
    (deleteMatch st matchId).1 = Except.error "Match not found" ∧
    (deleteMatch st matchId).2 = st := by
  unfold deleteMatch
  rw [h]
  exact ⟨rfl, rfl⟩

theorem c10_delete_missing_match_is_noop_witness :
    getMatchById {} 7 = none ∧
    (deleteMatch {} 7).1 = Except.error "Match not found" ∧
    (deleteMatch {} 7).2 = {} :=
  ⟨rfl, c10_delete_missing_match_is_noop {} 7 rfl⟩

/-- Claim C7: a submission that fails structural or sport-parameter
validation produces an error before any persistence step — no match
record is created and the player statistics writes never happen, so the
store comes back unchanged. -/
theorem c7_submit_fails_fast_without_writes (st : Store) (m : MatchInput) (now : ℤ)
    (rand : ℚ)
    (h : (validateMatchData m now).isValid = false ∨
      validateSportParameters m.sport (m.parameters.getD {}) ≠ []) :
    (∃ e, (submitMatchData st m now rand).1 = Except.error e) ∧
    (submitMatchData st m now rand).2 = st := by
  simp only [submitMatchData]
  split_ifs with h1 h2
  · exact ⟨⟨_, rfl⟩, rfl⟩
  · exact ⟨⟨_, rfl⟩, rfl⟩
  · rcases h with h | h
    · exact absurd h h1
    · exact absurd h h2

theorem c7_submit_fails_fast_without_writes_witness :
    ((validateMatchData ⟨none, none, none, none, none, none⟩ 0).isValid = false ∨
      validateSportParameters (MatchInput.sport ⟨none, none, none, none, none, none⟩)
        ((MatchInput.parameters ⟨none, none, none, none, none, none⟩).getD {}) ≠ []) ∧
    (∃ e, (submitMatchData {} ⟨none, none, none, none, none, none⟩ 0 0).1 =
      Except.error e) ∧
    (submitMatchData {} ⟨none, none, none, none, none, none⟩ 0 0).2 = {} :=
  have happ := c7_submit_fails_fast_without_writes {} ⟨none, none, none, none, none, none⟩
    0 0 (Or.inl (by decide))
  ⟨Or.inl (by decide), happ.1, happ.2⟩
